import Mathlib

/-!
# Verification of the MS5611 barometer driver

A shallow embedding of `src/lib.rs` (crate `ms5611-rs`): the MS5611
pressure/temperature sensor driver.  Machine integers are modelled as `ℤ`;
two's-complement wrapping is made explicit (`toI32`, `toU32`) at every point
where the source computes in `i32`/`u32`.  The `i64` intermediates of the
compensation pipeline are modelled as unbounded integers: with 16-bit
calibration coefficients and 24-bit raw conversions every `i64` intermediate
of the source is far below `2^63`, so `i64` arithmetic never wraps there.
Rust's `>>` on a signed integer is an arithmetic shift, i.e. floor division
by a power of two, which is exactly `Int`'s `/` (Euclidean division, equal to
floor division for a positive divisor).  The blocking I2C bus is modelled as
a response oracle mapping the index of each issued bus operation to either a
transport error or the bytes read; the driver records the transcript of
operations it issued and of the delay calls it made.
-/

set_option maxRecDepth 100000

deriving instance DecidableEq for Except

/-- Two's-complement wrap of an integer into the `i32` range
`[-2^31, 2^31)`, as performed by a Rust `as i32` cast or by wrapping `i32`
arithmetic in release builds. -/
def toI32 (n : ℤ) : ℤ := (n + 2147483648) % 4294967296 - 2147483648

/-- Two's-complement reinterpretation of an integer as a `u32`
(`as u32` cast): the unique representative in `[0, 2^32)`. -/
def toU32 (n : ℤ) : ℤ := n % 4294967296

/-- `enum OversampleRatio` (src/lib.rs lines 8-15); the discriminants are the
conversion command bytes 0x40, 0x42, 0x44, 0x46, 0x48. -/
inductive OversampleRatio where
  | Osr256
  | Osr512
  | Osr1024
  | Osr2048
  | Osr4096
deriving DecidableEq

/-- The discriminant of each `OversampleRatio` variant: the value produced by
`osr as u8` (the pressure conversion command byte). -/
def osrCmd : OversampleRatio → ℕ
  | .Osr256 => 0x40
  | .Osr512 => 0x42
  | .Osr1024 => 0x44
  | .Osr2048 => 0x46
  | .Osr4096 => 0x48

/-- `OversampleRatio::delay_ms` (src/lib.rs lines 18-26). -/
def delay_ms : OversampleRatio → ℕ
  | .Osr256 => 1
  | .Osr512 => 2
  | .Osr1024 => 3
  | .Osr2048 => 5
  | .Osr4096 => 10

/-- Position of each oversampling level in the resolution order, lowest
(OSR 256) to highest (OSR 4096) — the declaration order of the enum. -/
def osrIndex : OversampleRatio → ℕ
  | .Osr256 => 0
  | .Osr512 => 1
  | .Osr1024 => 2
  | .Osr2048 => 3
  | .Osr4096 => 4

/-- `struct Prom` (src/lib.rs lines 31-44): the six factory calibration
coefficients C1..C6, each a `u16` in the source (modelled as `ℤ` together
with the range predicate `Prom.InRange`). -/
structure Prom where
  pressure_sensitivity : ℤ
  pressure_offset : ℤ
  temp_coef_pressure_sensitivity : ℤ
  temp_coef_pressure_offset : ℤ
  temp_ref : ℤ
  temp_coef_temp : ℤ
deriving DecidableEq

/-- All six coefficients are in the `u16` range, as guaranteed by the `u16`
field types of the source. -/
def Prom.InRange (p : Prom) : Prop :=
  0 ≤ p.pressure_sensitivity ∧ p.pressure_sensitivity < 65536 ∧
  0 ≤ p.pressure_offset ∧ p.pressure_offset < 65536 ∧
  0 ≤ p.temp_coef_pressure_sensitivity ∧ p.temp_coef_pressure_sensitivity < 65536 ∧
  0 ≤ p.temp_coef_pressure_offset ∧ p.temp_coef_pressure_offset < 65536 ∧
  0 ≤ p.temp_ref ∧ p.temp_ref < 65536 ∧
  0 ≤ p.temp_coef_temp ∧ p.temp_coef_temp < 65536

instance (p : Prom) : Decidable p.InRange := by unfold Prom.InRange; infer_instance

/-! ## The compensation pipeline (src/lib.rs lines 166-198)

Each local of the source is a definition.  All arithmetic the source performs
in `i64` is exact here; the two places where the source computes in 32 bits —
the `temperature` variable (an `i32`) and the first-order `off2` term (whose
`5 * (temperature - 2000).pow(2)` is `i32` arithmetic, wrapping in release
builds) — carry explicit `toI32` wraps. -/

/-- `let dt = d2 - ((prom.temp_ref as i64) << 8);` (line 168). -/
def dT (p : Prom) (d2 : ℤ) : ℤ := d2 - p.temp_ref * 256

/-- `let temperature = 2000 + (((dt * (prom.temp_coef_temp as i64)) >> 23) as i32);`
(line 171): the shifted `i64` product is cast to `i32` and the addition is
`i32` arithmetic. -/
def tempVal (p : Prom) (d2 : ℤ) : ℤ :=
  toI32 (2000 + toI32 ((dT p d2 * p.temp_coef_temp) / 8388608))

/-- `let mut offset = ((prom.pressure_offset as i64) << 16) + (((prom.temp_coef_pressure_offset as i64) * dt) >> 7);`
(lines 172-173), before the second-order correction is subtracted. -/
def offsetFO (p : Prom) (d2 : ℤ) : ℤ :=
  p.pressure_offset * 65536 + (p.temp_coef_pressure_offset * dT p d2) / 128

/-- `let mut sens = ((prom.pressure_sensitivity as i64) << 15) + (((prom.temp_coef_pressure_sensitivity as i64) * dt) >> 8);`
(lines 174-175), before the second-order correction is subtracted. -/
def sensFO (p : Prom) (d2 : ℤ) : ℤ :=
  p.pressure_sensitivity * 32768 + (p.temp_coef_pressure_sensitivity * dT p d2) / 256

/-- `off2 = ((5 * (temperature - 2000).pow(2)) >> 1) as i64;` (line 182):
`temperature` is an `i32`, so the subtraction, the squaring and the
multiplication by 5 are all 32-bit operations (wrapping in release builds);
only afterwards is the value sign-extended to `i64`. -/
def off2Low (t : ℤ) : ℤ :=
  toI32 (5 * toI32 ((toI32 (t - 2000)) ^ 2)) / 2

/-- The accumulated `off2` after both temperature branches (lines 177-190):
zero at `t ≥ 2000`; `off2Low` below 20.00 °C; plus
`7 * (temperature as i64 + 1500).pow(2)` (64-bit) below -15.00 °C. -/
def off2Full (t : ℤ) : ℤ :=
  (if t < 2000 then off2Low t else 0) + (if t < -1500 then 7 * (t + 1500) ^ 2 else 0)

/-- The accumulated `sens2` after both branches (lines 177-190): `off2 >> 1`
(of the first-branch `off2` only) below 20.00 °C; plus
`(11 * (temperature as i64 + 1500).pow(2)) >> 1` below -15.00 °C. -/
def sens2Full (t : ℤ) : ℤ :=
  (if t < 2000 then off2Low t / 2 else 0) +
    (if t < -1500 then (11 * (t + 1500) ^ 2) / 2 else 0)

/-- `let pressure: i32 = (((((d1 as i64) * sens) >> 21) - offset) >> 15) as i32;`
(line 196), with `offset -= off2; sens -= sens2;` (lines 192-193) folded in. -/
def pressureVal (p : Prom) (d1 d2 : ℤ) : ℤ :=
  toI32 ((d1 * (sensFO p d2 - sens2Full (tempVal p d2)) / 2097152
    - (offsetFO p d2 - off2Full (tempVal p d2))) / 32768)

/-- The compensation computation of `Ms5611::read` (src/lib.rs lines
166-198) as a pure function: the signed `i32` pressure (before the final
`as u32` reinterpretation of line 198) and the signed `i32` temperature. -/
def compensate (p : Prom) (d1 d2 : ℤ) : ℤ × ℤ :=
  (pressureVal p d1 d2, tempVal p d2)

/-! ## The datasheet algorithm as the specification states it (spec §4.3)

These definitions follow the spec's words, to be compared with the
source-derived pipeline above: every step is carried out in exact
(at-least-64-bit) signed arithmetic, with arithmetic shifts as floor
division. -/

/-- Spec §4.3 step 2: `temperature = 2000 + (dT * temp_coef_temp) >> 23`,
in exact wide arithmetic. -/
def tempFO (p : Prom) (d2 : ℤ) : ℤ :=
  2000 + (dT p d2 * p.temp_coef_temp) / 8388608

/-- Spec §4.3 step 3: `offset = (pressure_offset << 16) + ((temp_coef_pressure_offset * dT) >> 7)`. -/
def offsetSpec (p : Prom) (d2 : ℤ) : ℤ :=
  p.pressure_offset * 65536 + (p.temp_coef_pressure_offset * dT p d2) / 128

/-- Spec §4.3 step 4: `sensitivity = (pressure_sensitivity << 15) + ((temp_coef_pressure_sensitivity * dT) >> 8)`. -/
def sensSpec (p : Prom) (d2 : ℤ) : ℤ :=
  p.pressure_sensitivity * 32768 + (p.temp_coef_pressure_sensitivity * dT p d2) / 256

/-- Spec §4.3 step 5: `offset2 = (5 * (temperature-2000)^2) >> 1`, in exact
wide arithmetic (no 32-bit truncation). -/
def off2LowSpec (t : ℤ) : ℤ := 5 * (t - 2000) ^ 2 / 2

/-- Spec §4.3 steps 5-6 for `offset2`: low-temperature term iff `t < 2000`,
plus very-low-temperature term `7 * (t+1500)^2` iff `t < -1500`, cumulative. -/
def off2Spec (t : ℤ) : ℤ :=
  (if t < 2000 then off2LowSpec t else 0) + (if t < -1500 then 7 * (t + 1500) ^ 2 else 0)

/-- Spec §4.3 steps 5-6 for `sensitivity2`: `offset2 >> 1` of the step-5 term
iff `t < 2000`, plus `(11 * (t+1500)^2) >> 1` iff `t < -1500`, cumulative. -/
def sens2Spec (t : ℤ) : ℤ :=
  (if t < 2000 then off2LowSpec t / 2 else 0) +
    (if t < -1500 then (11 * (t + 1500) ^ 2) / 2 else 0)

/-- Spec §4.3 steps 7-8: `pressure = (((raw_pressure * sensitivity) >> 21) - offset) >> 15`
after `offset -= offset2; sensitivity -= sensitivity2`, in exact wide
arithmetic. -/
def pressureSpec (p : Prom) (d1 d2 : ℤ) : ℤ :=
  (d1 * (sensSpec p d2 - sens2Spec (tempFO p d2)) / 2097152
    - (offsetSpec p d2 - off2Spec (tempFO p d2))) / 32768

/-- Spec §4.3 steps 1-9 assembled: the datasheet compensation algorithm
exactly as the specification words it. -/
def compensateSpec (p : Prom) (d1 d2 : ℤ) : ℤ × ℤ :=
  (pressureSpec p d1 d2, tempFO p d2)

/-! ## The I2C transport model

The driver owns an `embedded_hal` blocking I2C handle and issues a fixed,
data-independent sequence of `write`/`read` calls per operation, aborting at
the first transport error (`?`).  The bus is modelled as a response oracle
`Dev ε`: the response to the `k`-th bus call of the current driver operation
is either a transport error of type `ε` or the list of bytes read (ignored
for writes).  Bytes consumed from the bus are reduced mod 256, as the
hardware returns `u8`s.  Each driver operation also returns the transcript
of bus operations it issued, truncated at the first failing call. -/

/-- One addressed bus transaction as issued by the driver: a write of given
bytes, or a read of a given number of bytes. -/
inductive BusOp where
  | write (addr : ℕ) (bytes : List ℕ)
  | read (addr : ℕ) (len : ℕ)
deriving DecidableEq

/-- The transport oracle: the response to the `k`-th bus call. -/
def Dev (ε : Type) : Type := ℕ → Except ε (List ℕ)

/-- Driver state (`struct Ms5611`, src/lib.rs lines 46-50): the fixed device
address and the optional calibration coefficients (`prom: Option<Prom>`).
The owned I2C handle is modelled as the oracle passed to each operation. -/
structure Ms5611 where
  address : ℕ
  prom : Option Prom
deriving DecidableEq

/-- `u16::from_be_bytes(buf)` on a 2-byte read buffer. -/
def be16 (b0 b1 : ℕ) : ℕ := b0 * 256 + b1

/-- `i32::from_be_bytes(data)` where `data[0] = 0` and `data[1..4]` was
filled by a 3-byte read: the 24-bit big-endian value, zero-extended. -/
def be24 (bs : List ℕ) : ℤ :=
  ((bs.getD 0 0 % 256) * 65536 + (bs.getD 1 0 % 256) * 256 + bs.getD 2 0 % 256 : ℕ)

/-! ### The PROM CRC (src/lib.rs lines 76-140) -/

/-- One round of the CRC inner loop (lines 81-87): shift the 16-bit register
left, XOR-ing in 0x3000 when the high bit was set. -/
def crcRound (c : ℕ) : ℕ :=
  if c &&& 0x8000 > 0 then (c <<< 1) % 65536 ^^^ 0x3000 else (c <<< 1) % 65536

/-- `fn crc_accumulate_byte` (lines 79-88): XOR the byte into the low-order
position, then 8 rounds of `crcRound`. -/
def crc_accumulate_byte (crc b : ℕ) : ℕ :=
  (List.range 8).foldl (fun c _ => crcRound c) (crc ^^^ b % 256)

/-- The complete CRC register contents after accumulating a byte list from
zero, shifted right by 12 bits (line 136): the computed 4-bit checksum. -/
def promCrc (bs : List ℕ) : ℕ := bs.foldl crc_accumulate_byte 0 >>> 12

/-- Outcome of `Ms5611::read_prom`: normal return, a transport error
propagated by `?`, or the `panic!` of line 139 (which aborts rather than
returns; its arguments are the mismatched checksum nibbles). -/
inductive PromResult (ε : Type) where
  | ok
  | panicked (crc crc_check : ℕ)
  | busError (e : ε)
deriving DecidableEq

/-- The observable behaviour of one `read_prom` call: its outcome, the value
of the `prom` field afterwards, and the transcript of bus operations. -/
structure PromOut (ε : Type) where
  result : PromResult ε
  prom : Option Prom
  log : List BusOp
deriving DecidableEq

/-- The 8 PROM word transactions of `read_prom` (lines 95-130): for word `i`
(`i = 0..7`), write the one-byte command `MS5611_PROM_READ + 2*i`
(`0b1010_0000 + 2*i`) then read 2 bytes; stop at the first transport error.
Returns the transcript and either the error or the list of byte pairs
(each byte reduced mod 256). -/
def readWords {ε : Type} (dev : Dev ε) (addr : ℕ) :
    ℕ → ℕ → List BusOp × Except ε (List (ℕ × ℕ))
  | _, 0 => ([], Except.ok [])
  | i, n + 1 =>
    match dev (2 * i) with
    | .error e => ([BusOp.write addr [160 + 2 * i]], .error e)
    | .ok _ =>
      match dev (2 * i + 1) with
      | .error e => ([BusOp.write addr [160 + 2 * i], BusOp.read addr 2], .error e)
      | .ok bs =>
        let rest := readWords dev addr (i + 1) n
        (BusOp.write addr [160 + 2 * i] :: BusOp.read addr 2 :: rest.1,
          rest.2.map (fun ws => (bs.getD 0 0 % 256, bs.getD 1 0 % 256) :: ws))

/-- Parsing of the six coefficients (lines 101-126): words 1..6 of the PROM,
each big-endian. -/
def promOfWords (ws : List (ℕ × ℕ)) : Prom where
  pressure_sensitivity := (be16 (ws.getD 1 (0, 0)).1 (ws.getD 1 (0, 0)).2 : ℕ)
  pressure_offset := (be16 (ws.getD 2 (0, 0)).1 (ws.getD 2 (0, 0)).2 : ℕ)
  temp_coef_pressure_sensitivity := (be16 (ws.getD 3 (0, 0)).1 (ws.getD 3 (0, 0)).2 : ℕ)
  temp_coef_pressure_offset := (be16 (ws.getD 4 (0, 0)).1 (ws.getD 4 (0, 0)).2 : ℕ)
  temp_ref := (be16 (ws.getD 5 (0, 0)).1 (ws.getD 5 (0, 0)).2 : ℕ)
  temp_coef_temp := (be16 (ws.getD 6 (0, 0)).1 (ws.getD 6 (0, 0)).2 : ℕ)

/-- `Ms5611::read_prom` (src/lib.rs lines 65-145).  Reads the 8 PROM words
(the factory word, the six coefficients, the checksum word), accumulating
the CRC over all their bytes in order with the last word's low byte replaced
by zero — the source accumulates incrementally per word (lines 97-134),
which is the same fold in the same byte order.  The low nibble of the last
word (line 132) is compared with the computed checksum; on mismatch the
source panics (line 139) leaving `self.prom` unchanged; on match `self.prom`
is set to the parsed coefficients. -/
def Ms5611.read_prom {ε : Type} (m : Ms5611) (dev : Dev ε) : PromOut ε :=
  match readWords dev m.address 0 8 with
  | (log, .error e) => ⟨.busError e, m.prom, log⟩
  | (log, .ok ws) =>
    let crc := be16 (ws.getD 7 (0, 0)).1 (ws.getD 7 (0, 0)).2 &&& 0xF
    let crc_check := promCrc ((ws.flatMap (fun w => [w.1, w.2])).take 15 ++ [0])
    ⟨if crc ≠ crc_check then .panicked crc crc_check else .ok,
      if crc ≠ crc_check then m.prom else some (promOfWords ws),
      log⟩

/-- `Ms5611::reset` (src/lib.rs lines 61-63): a single write of
`MS5611_RESET = 0b0001_1110`. -/
def Ms5611.reset {ε : Type} (m : Ms5611) (dev : Dev ε) : List BusOp × Except ε Unit :=
  ([BusOp.write m.address [0b00011110]],
    match dev 0 with
    | .error e => .error e
    | .ok _ => .ok ())

/-- The observable behaviour of one `Ms5611::read` call: the returned
`Result<(u32, i32), Error>`, the transcript of bus operations, the sequence
of arguments passed to the injected `delay_fn`, and the `prom` field
afterwards (`read` never assigns it). -/
structure ReadOut (ε : Type) where
  result : Except ε (ℤ × ℤ)
  log : List BusOp
  delays : List ℕ
  prom : Option Prom
deriving DecidableEq

/-- `Ms5611::read` (src/lib.rs lines 147-199).  If no calibration is loaded
it returns `Ok((0, 0))` before touching the bus (lines 148-150).  Otherwise:
write the OSR conversion command, call `delay_fn(osr.delay_ms())`, write
`MS5611_READ_ADC = 0`, read 3 bytes (big-endian `d1`); the same for the
temperature channel with command byte `osr + 0x10` (`d2`); abort at the
first transport error; finally return the compensated pair, the pressure
reinterpreted `as u32` (line 198). -/
def Ms5611.read {ε : Type} (m : Ms5611) (osr : OversampleRatio) (dev : Dev ε) : ReadOut ε :=
  match m.prom with
  | none => ⟨.ok (0, 0), [], [], m.prom⟩
  | some prom =>
    let a := m.address
    match dev 0 with
    | .error e => ⟨.error e, [.write a [osrCmd osr]], [], m.prom⟩
    | .ok _ =>
      match dev 1 with
      | .error e =>
        ⟨.error e, [.write a [osrCmd osr], .write a [0]], [delay_ms osr], m.prom⟩
      | .ok _ =>
        match dev 2 with
        | .error e =>
          ⟨.error e, [.write a [osrCmd osr], .write a [0], .read a 3],
            [delay_ms osr], m.prom⟩
        | .ok bs1 =>
          match dev 3 with
          | .error e =>
            ⟨.error e, [.write a [osrCmd osr], .write a [0], .read a 3,
              .write a [osrCmd osr + 0x10]], [delay_ms osr], m.prom⟩
          | .ok _ =>
            match dev 4 with
            | .error e =>
              ⟨.error e, [.write a [osrCmd osr], .write a [0], .read a 3,
                .write a [osrCmd osr + 0x10], .write a [0]],
                [delay_ms osr, delay_ms osr], m.prom⟩
            | .ok _ =>
              match dev 5 with
              | .error e =>
                ⟨.error e, [.write a [osrCmd osr], .write a [0], .read a 3,
                  .write a [osrCmd osr + 0x10], .write a [0], .read a 3],
                  [delay_ms osr, delay_ms osr], m.prom⟩
              | .ok bs2 =>
                ⟨.ok (toU32 (compensate prom (be24 bs1) (be24 bs2)).1,
                    (compensate prom (be24 bs1) (be24 bs2)).2),
                  [.write a [osrCmd osr], .write a [0], .read a 3,
                    .write a [osrCmd osr + 0x10], .write a [0], .read a 3],
                  [delay_ms osr, delay_ms osr], m.prom⟩

/-! ### Canonical error-free devices -/

/-- The error-free device serving a fixed list of 8 PROM words: every write
succeeds and the read of word `i` returns its two bytes. -/
def devOfWords {ε : Type} (ws : List (ℕ × ℕ)) : Dev ε := fun k =>
  .ok (if k % 2 = 1 then [(ws.getD (k / 2) (0, 0)).1, (ws.getD (k / 2) (0, 0)).2] else [])

/-- The checksum nibble embedded in an 8-word PROM image: the 4 low-order
bits of the last word. -/
def promNibble (ws : List (ℕ × ℕ)) : ℕ :=
  be16 ((ws.getD 7 (0, 0)).1 % 256) ((ws.getD 7 (0, 0)).2 % 256) &&& 0xF

/-- The 8 words obtained from `devOfWords ws`, bytes reduced mod 256 (words
beyond the end of `ws` read as zero). -/
def promWordsNorm (ws : List (ℕ × ℕ)) : List (ℕ × ℕ) :=
  (List.range 8).map (fun i => ((ws.getD i (0, 0)).1 % 256, (ws.getD i (0, 0)).2 % 256))

/-- The computed checksum of an 8-word PROM image: the CRC over its 16 bytes
with the last (checksum-word low) byte replaced by zero. -/
def promCrcOfWords (ws : List (ℕ × ℕ)) : ℕ :=
  promCrc (((promWordsNorm ws).flatMap (fun w => [w.1, w.2])).take 15 ++ [0])

/-- The transcript of bus operations issued by an error-free `read_prom`:
the eight command-write/2-byte-read pairs at offsets 0, 2, ..., 14 from the
PROM read base `0b1010_0000 = 160`. -/
def promLog (a : ℕ) : List BusOp :=
  [.write a [160], .read a 2, .write a [162], .read a 2, .write a [164], .read a 2,
   .write a [166], .read a 2, .write a [168], .read a 2, .write a [170], .read a 2,
   .write a [172], .read a 2, .write a [174], .read a 2]


/-! ## Concrete fixtures -/

/-- The coefficient set of the MS5611 datasheet worked example:
C1 = 40127, C2 = 36924, C3 = 23317, C4 = 23282, C5 = 33464, C6 = 28312. -/
def promDS : Prom := ⟨40127, 36924, 23317, 23282, 33464, 28312⟩

/-- An in-range coefficient set driving the temperature to the extreme low
end (C5 = C6 = 65535 with raw temperature 0), where the 32-bit `off2`
computation overflows. -/
def promWrap : Prom := ⟨0, 0, 0, 0, 65535, 65535⟩

/-- An in-range coefficient set (maximal pressure offset, zero sensitivity)
for which the computed pressure is negative. -/
def promNeg : Prom := ⟨0, 65535, 0, 0, 0, 0⟩

/-- A PROM image carrying the datasheet coefficients, a factory word of
0x3005 and the matching checksum nibble 13. -/
def wsValid : List (ℕ × ℕ) :=
  [(0x30, 0x05), (0x9C, 0xBF), (0x90, 0x3C), (0x5B, 0x15),
   (0x5A, 0xF2), (0x82, 0xB8), (0x6E, 0x98), (0x00, 0x0D)]

/-- The same PROM image with the checksum nibble corrupted to 11
(computed checksum is 13). -/
def wsBad : List (ℕ × ℕ) :=
  [(0x30, 0x05), (0x9C, 0xBF), (0x90, 0x3C), (0x5B, 0x15),
   (0x5A, 0xF2), (0x82, 0xB8), (0x6E, 0x98), (0x00, 0x0B)]

/-- A device that fails the fourth bus operation (the temperature
conversion-start write) with transport error 7 and answers everything else
with an empty successful response. -/
def devErr3 : Dev ℕ := fun k => if k = 3 then .error 7 else .ok []

/-- The checksum computation exactly as claim C5 words it: over the 14
bytes of SEVEN words — from the factory-reserved first word through the
seventh word, whose low byte is replaced by zero — with the same XOR/shift
rounds, shifted right by 12. -/
def promCrc7OfWords (ws : List (ℕ × ℕ)) : ℕ :=
  promCrc ((((List.range 7).map
    (fun i => ((ws.getD i (0, 0)).1 % 256, (ws.getD i (0, 0)).2 % 256))).flatMap
      (fun w => [w.1, w.2])).take 13 ++ [0])

/-- The 4 low-order bits of the SEVENTH word, which claim C5 takes to be
the embedded checksum. -/
def promNibble7 (ws : List (ℕ × ℕ)) : ℕ :=
  be16 ((ws.getD 6 (0, 0)).1 % 256) ((ws.getD 6 (0, 0)).2 % 256) &&& 0xF

/-- `read_prom` against the error-free device `devOfWords ws`, computed:
it issues the full 16-operation transcript and accepts or panics according
to the embedded nibble versus the computed checksum. -/
theorem read_prom_devOfWords {ε : Type} (m : Ms5611) (ws : List (ℕ × ℕ)) :
    Ms5611.read_prom (ε := ε) m (devOfWords ws) =
      ⟨if promNibble ws ≠ promCrcOfWords ws
          then PromResult.panicked (promNibble ws) (promCrcOfWords ws) else PromResult.ok,
        if promNibble ws ≠ promCrcOfWords ws then m.prom
          else some (promOfWords (promWordsNorm ws)),
        promLog m.address⟩ := rfl

/-! ## Arithmetic helper lemmas -/

theorem toI32_eq_self {n : ℤ} (h1 : -2147483648 ≤ n) (h2 : n < 2147483648) :
    toI32 n = n := by
  unfold toI32; omega

theorem toI32_range (n : ℤ) : -2147483648 ≤ toI32 n ∧ toI32 n < 2147483648 := by
  unfold toI32; omega

theorem mul_range {x X c C : ℤ} (h1 : -X ≤ x) (h2 : x ≤ X) (h3 : 0 ≤ c) (h4 : c ≤ C) :
    -(X * C) ≤ x * c ∧ x * c ≤ X * C :=
  ⟨by nlinarith, by nlinarith⟩

theorem ediv_range {a b c : ℤ} (hb : 0 < b) (h1 : -(c * b) ≤ a) (h2 : a ≤ c * b) :
    -c ≤ a / b ∧ a / b ≤ c := by
  constructor
  · have h3 := Int.ediv_le_ediv hb h1
    rw [show -(c * b) = -c * b by ring, Int.mul_ediv_cancel (-c) (ne_of_gt hb)] at h3
    exact h3
  · have h3 := Int.ediv_le_ediv hb h2
    rwa [Int.mul_ediv_cancel c (ne_of_gt hb)] at h3

theorem be24_range (bs : List ℕ) : 0 ≤ be24 bs ∧ be24 bs < 16777216 := by
  unfold be24
  have h0 : bs.getD 0 0 % 256 < 256 := Nat.mod_lt _ (by norm_num)
  have h1 : bs.getD 1 0 % 256 < 256 := Nat.mod_lt _ (by norm_num)
  have h2 : bs.getD 2 0 % 256 < 256 := Nat.mod_lt _ (by norm_num)
  constructor
  · exact Int.ofNat_nonneg _
  · exact_mod_cast by omega

/-! ## The compensation pipeline agrees with the datasheet algorithm
wherever the 32-bit `off2` term does not overflow -/

theorem dT_range {p : Prom} {d2 : ℤ} (hp : p.InRange) (hd2 : 0 ≤ d2)
    (hd2' : d2 < 16777216) : -16777216 < dT p d2 ∧ dT p d2 < 16777216 := by
  obtain ⟨-, -, -, -, -, -, -, -, h5, h5', -, -⟩ := hp
  unfold dT; omega

theorem tempQ_range {p : Prom} {d2 : ℤ} (hp : p.InRange) (hd2 : 0 ≤ d2)
    (hd2' : d2 < 16777216) :
    -131072 ≤ dT p d2 * p.temp_coef_temp / 8388608 ∧
      dT p d2 * p.temp_coef_temp / 8388608 ≤ 131072 := by
  obtain ⟨hdt1, hdt2⟩ := dT_range hp hd2 hd2'
  obtain ⟨-, -, -, -, -, -, -, -, -, -, h6, h6'⟩ := hp
  have hm := mul_range (x := dT p d2) (X := 16777216) (c := p.temp_coef_temp)
    (C := 65536) (by omega) (by omega) h6 (by omega)
  exact ediv_range (by norm_num) (by linarith [hm.1]) (by linarith [hm.2])

theorem tempVal_eq_tempFO {p : Prom} {d2 : ℤ} (hp : p.InRange) (hd2 : 0 ≤ d2)
    (hd2' : d2 < 16777216) : tempVal p d2 = tempFO p d2 := by
  obtain ⟨hq1, hq2⟩ := tempQ_range hp hd2 hd2'
  unfold tempVal tempFO
  have e1 : toI32 (dT p d2 * p.temp_coef_temp / 8388608) =
      dT p d2 * p.temp_coef_temp / 8388608 := toI32_eq_self (by omega) (by omega)
  rw [e1, toI32_eq_self (by omega) (by omega)]

theorem tempFO_range {p : Prom} {d2 : ℤ} (hp : p.InRange) (hd2 : 0 ≤ d2)
    (hd2' : d2 < 16777216) : -129072 ≤ tempFO p d2 ∧ tempFO p d2 ≤ 133072 := by
  obtain ⟨hq1, hq2⟩ := tempQ_range hp hd2 hd2'
  unfold tempFO; omega

theorem lowTemp_bound {t : ℤ} (h : 5 * (t - 2000) ^ 2 < 2147483648) :
    -20725 < t - 2000 ∧ t - 2000 < 20725 := by
  constructor
  · nlinarith [sq_nonneg (t - 2000 + 20725)]
  · nlinarith [sq_nonneg (t - 2000 - 20725)]

theorem off2Low_eq_spec {t : ℤ} (h : 5 * (t - 2000) ^ 2 < 2147483648) :
    off2Low t = off2LowSpec t := by
  obtain ⟨hb1, hb2⟩ := lowTemp_bound h
  have hsq : 0 ≤ (t - 2000) ^ 2 := sq_nonneg _
  have hsq' : (t - 2000) ^ 2 < 2147483648 := by nlinarith
  unfold off2Low off2LowSpec
  have e1 : toI32 (t - 2000) = t - 2000 := toI32_eq_self (by omega) (by omega)
  rw [e1]
  have e2 : toI32 ((t - 2000) ^ 2) = (t - 2000) ^ 2 := toI32_eq_self (by nlinarith) hsq'
  rw [e2, toI32_eq_self (by nlinarith) h]

theorem mul_range' {x X c C : ℤ} (h1 : -X ≤ x) (h2 : x ≤ X) (h3 : 0 ≤ c) (h4 : c ≤ C) :
    -(X * C) ≤ c * x ∧ c * x ≤ X * C := by
  rw [mul_comm c x]; exact mul_range h1 h2 h3 h4

theorem off2Full_eq_spec {t : ℤ} (h : 5 * (t - 2000) ^ 2 < 2147483648) :
    off2Full t = off2Spec t := by
  unfold off2Full off2Spec
  rw [off2Low_eq_spec h]

theorem sens2Full_eq_spec {t : ℤ} (h : 5 * (t - 2000) ^ 2 < 2147483648) :
    sens2Full t = sens2Spec t := by
  unfold sens2Full sens2Spec
  rw [off2Low_eq_spec h]

theorem off2Spec_range {t : ℤ} (h : 5 * (t - 2000) ^ 2 < 2147483648) :
    0 ≤ off2Spec t ∧ off2Spec t ≤ 8589934592 := by
  obtain ⟨hb1, hb2⟩ := lowTemp_bound h
  have h1 : 0 ≤ 5 * (t - 2000) ^ 2 / 2 := Int.ediv_nonneg (by positivity) (by norm_num)
  have h2 : 5 * (t - 2000) ^ 2 / 2 ≤ 1073741824 :=
    (ediv_range (b := 2) (c := 1073741824) (by norm_num) (by nlinarith) (by omega)).2
  have h3 : 0 ≤ 7 * (t + 1500) ^ 2 := by positivity
  have h4 : 7 * (t + 1500) ^ 2 ≤ 4294967296 := by nlinarith
  unfold off2Spec off2LowSpec
  split_ifs <;> omega

theorem sens2Spec_range {t : ℤ} (h : 5 * (t - 2000) ^ 2 < 2147483648) :
    0 ≤ sens2Spec t ∧ sens2Spec t ≤ 8589934592 := by
  obtain ⟨hb1, hb2⟩ := lowTemp_bound h
  have h1 : 0 ≤ 5 * (t - 2000) ^ 2 / 2 := Int.ediv_nonneg (by positivity) (by norm_num)
  have h2 : 5 * (t - 2000) ^ 2 / 2 ≤ 1073741824 :=
    (ediv_range (b := 2) (c := 1073741824) (by norm_num) (by nlinarith) (by omega)).2
  have h3 : 0 ≤ 5 * (t - 2000) ^ 2 / 2 / 2 := Int.ediv_nonneg h1 (by norm_num)
  have h4 : 5 * (t - 2000) ^ 2 / 2 / 2 ≤ 1073741824 :=
    (ediv_range (b := 2) (c := 1073741824) (by norm_num) (by omega) (by omega)).2
  have h5 : 0 ≤ 11 * (t + 1500) ^ 2 / 2 := Int.ediv_nonneg (by positivity) (by norm_num)
  have h6 : 11 * (t + 1500) ^ 2 / 2 ≤ 4294967296 :=
    (ediv_range (b := 2) (c := 4294967296) (by norm_num) (by nlinarith) (by nlinarith)).2
  unfold sens2Spec off2LowSpec
  split_ifs <;> omega

theorem offsetSpec_range {p : Prom} {d2 : ℤ} (hp : p.InRange) (hd2 : 0 ≤ d2)
    (hd2' : d2 < 16777216) :
    -17179869184 ≤ offsetSpec p d2 ∧ offsetSpec p d2 ≤ 17179869184 := by
  obtain ⟨hdt1, hdt2⟩ := dT_range hp hd2 hd2'
  obtain ⟨-, -, ho, ho', -, -, hc4, hc4', -, -, -, -⟩ := hp
  have hm := mul_range' (x := dT p d2) (X := 16777216) (c := p.temp_coef_pressure_offset)
    (C := 65536) (by omega) (by omega) hc4 (by omega)
  have hq := ediv_range (b := 128) (c := 8589934592) (by norm_num)
    (by linarith [hm.1]) (by linarith [hm.2])
  unfold offsetSpec
  omega

theorem sensSpec_range {p : Prom} {d2 : ℤ} (hp : p.InRange) (hd2 : 0 ≤ d2)
    (hd2' : d2 < 16777216) :
    -8589934592 ≤ sensSpec p d2 ∧ sensSpec p d2 ≤ 8589934592 := by
  obtain ⟨hdt1, hdt2⟩ := dT_range hp hd2 hd2'
  obtain ⟨hc1, hc1', -, -, hc3, hc3', -, -, -, -, -, -⟩ := hp
  have hm := mul_range' (x := dT p d2) (X := 16777216)
    (c := p.temp_coef_pressure_sensitivity) (C := 65536) (by omega) (by omega) hc3 (by omega)
  have hq := ediv_range (b := 256) (c := 4294967296) (by norm_num)
    (by linarith [hm.1]) (by linarith [hm.2])
  unfold sensSpec
  omega

theorem pressureSpec_range {p : Prom} {d1 d2 : ℤ} (hp : p.InRange) (hd1 : 0 ≤ d1)
    (hd1' : d1 < 16777216) (hd2 : 0 ≤ d2) (hd2' : d2 < 16777216)
    (hlow : 5 * (tempFO p d2 - 2000) ^ 2 < 2147483648) :
    -8388608 ≤ pressureSpec p d1 d2 ∧ pressureSpec p d1 d2 ≤ 8388608 := by
  obtain ⟨hs1, hs2⟩ := sensSpec_range hp hd2 hd2'
  obtain ⟨hs3, hs4⟩ := sens2Spec_range hlow
  obtain ⟨ho1, ho2⟩ := offsetSpec_range hp hd2 hd2'
  obtain ⟨ho3, ho4⟩ := off2Spec_range hlow
  have hm := mul_range' (x := sensSpec p d2 - sens2Spec (tempFO p d2))
    (X := 17179869184) (c := d1) (C := 16777216) (by omega) (by omega) hd1 (by omega)
  have hq := ediv_range (a := d1 * (sensSpec p d2 - sens2Spec (tempFO p d2)))
    (b := 2097152) (c := 137438953472) (by norm_num)
    (by linarith [hm.1]) (by linarith [hm.2])
  unfold pressureSpec
  exact ediv_range (b := 32768) (c := 8388608) (by norm_num)
    (by linarith [hq.1]) (by linarith [hq.2])

/-- Claim C3 (amended): for every in-range coefficient set and raw pair,
the compensation computation in `read` produces exactly the datasheet
algorithm's result — `dT`, `temperature`, first-order offset/sensitivity,
the cumulative low/very-low-temperature corrections with branch boundaries
exact at 2000 versus 1999 and at -1500 versus -1501, and the final
pressure formula —
PROVIDED the 32-bit low-temperature term `5 * (temperature - 2000)^2` does
not overflow the `i32` range (the source computes that one term in 32-bit
arithmetic; everywhere the term fits, in particular throughout the sensor's
physical operating range, code and datasheet agree exactly). -/
theorem compensate_eq_datasheet {p : Prom} {d1 d2 : ℤ} (hp : p.InRange)
    (hd1 : 0 ≤ d1) (hd1' : d1 < 16777216) (hd2 : 0 ≤ d2) (hd2' : d2 < 16777216)
    (hlow : 5 * (tempFO p d2 - 2000) ^ 2 < 2147483648) :
    compensate p d1 d2 = compensateSpec p d1 d2 := by
  have ht := tempVal_eq_tempFO hp hd2 hd2'
  have hpr := pressureSpec_range hp hd1 hd1' hd2 hd2' hlow
  have hfo : sensFO p d2 = sensSpec p d2 := rfl
  have hoo : offsetFO p d2 = offsetSpec p d2 := rfl
  unfold compensate compensateSpec pressureVal
  rw [ht, off2Full_eq_spec hlow, sens2Full_eq_spec hlow, hfo, hoo]
  unfold pressureSpec at hpr ⊢
  rw [toI32_eq_self (by linarith [hpr.1]) (by linarith [hpr.2])]


/-! ## The claims -/

/-- Claim C1: the specification demands that a `read` before a successful
calibration load fail with a `NotCalibrated` error.  The code instead
returns the placeholder pair `Ok((0, 0))` (src/lib.rs lines 148-150) for
every uncalibrated state, every oversampling level and every device — the
very historical bug spec §9 says must not be reproduced. -/
theorem uncalibrated_read_returns_zero {ε : Type} (a : ℕ) (osr : OversampleRatio)
    (dev : Dev ε) :
    (Ms5611.read (⟨a, none⟩ : Ms5611) osr dev).result = Except.ok (0, 0) := rfl

/-- Claim C2 (counterexample): on a checksum mismatch (embedded nibble 11,
computed checksum 13) `read_prom` does not return a recoverable
`CalibrationIntegrityError` value — it `panic!`s (src/lib.rs line 139),
aborting the process, which the embedding records as
`PromResult.panicked`.  The `prom` field is left unchanged. -/
theorem crc_mismatch_panic_counterexample :
    (Ms5611.read_prom (ε := Unit) ⟨0x77, none⟩ (devOfWords wsBad)).result
        = PromResult.panicked 11 13 ∧
      (Ms5611.read_prom (ε := Unit) ⟨0x77, none⟩ (devOfWords wsBad)).prom = none := by
  rw [read_prom_devOfWords]
  exact ⟨by decide, by decide⟩

/-- Claim C2 (amended): whenever the embedded checksum nibble differs from
the computed checksum, `read_prom` panics (process-aborting `panic!`, not a
recoverable error return), and the driver's calibration state is left
unchanged — coefficients are never partially applied. -/
theorem crc_mismatch_panics {ε : Type} (m : Ms5611) (ws : List (ℕ × ℕ))
    (hmm : promNibble ws ≠ promCrcOfWords ws) :
    (Ms5611.read_prom (ε := ε) m (devOfWords ws)).result
        = PromResult.panicked (promNibble ws) (promCrcOfWords ws) ∧
      (Ms5611.read_prom (ε := ε) m (devOfWords ws)).prom = m.prom := by
  rw [read_prom_devOfWords]
  dsimp only
  rw [if_pos hmm, if_pos hmm]
  exact ⟨rfl, rfl⟩

/-- Claim C2 (witness): the amended statement applied to the corrupted
image `wsBad` held by an already-calibrated driver: it panics and the
previously loaded coefficients stay. -/
theorem crc_mismatch_panics_witness :
    (Ms5611.read_prom (ε := Unit) ⟨0x76, some promDS⟩ (devOfWords wsBad)).result
        = PromResult.panicked (promNibble wsBad) (promCrcOfWords wsBad) ∧
      (Ms5611.read_prom (ε := Unit) ⟨0x76, some promDS⟩ (devOfWords wsBad)).prom
        = some promDS :=
  crc_mismatch_panics ⟨0x76, some promDS⟩ wsBad (by decide)

/-- Claim C3 (counterexample): at the admissible input C5 = C6 = 65535,
raw pair (0, 0), the code's compensation differs from the datasheet
algorithm (the 32-bit `off2` term wraps), so the unconditional claim is
false. -/
theorem compensation_differs_from_datasheet :
    promWrap.InRange ∧ compensate promWrap 0 0 ≠ compensateSpec promWrap 0 0 := by
  exact ⟨by decide, by decide⟩

/-- Claim C3 (witness): the datasheet worked example (C1..C6 above,
D1 = 9085466, D2 = 8569150): the hypotheses hold, code and datasheet agree,
and both produce the datasheet's published golden output
(pressure 1000.09 mbar, temperature 20.07 °C). -/
theorem compensate_eq_datasheet_witness :
    promDS.InRange ∧ 5 * (tempFO promDS 8569150 - 2000) ^ 2 < 2147483648 ∧
      compensate promDS 9085466 8569150 = compensateSpec promDS 9085466 8569150 ∧
      compensate promDS 9085466 8569150 = (100009, 2007) :=
  ⟨by decide, by decide,
    compensate_eq_datasheet (by decide) (by norm_num) (by norm_num) (by norm_num)
      (by norm_num) (by decide),
    by decide⟩

/-- Claim C4: the claim (and spec §4.3/§9) requires every multiplication
before a right-shift to be carried out in at least 64-bit signed
arithmetic.  The second-order term `off2 = (5 * (temperature - 2000).pow(2)) >> 1`
(src/lib.rs line 182) is instead computed in `i32`: at the admissible
input below the code's 32-bit value is -1966058 while the wide (datasheet)
value is 42947706902 — the intermediate product wrapped modulo 2^32 (in a
debug build this line panics with an overflow instead), and the final
result of `compensate` differs from the wide-arithmetic result. -/
theorem off2_term_wraps_in_32_bits :
    promWrap.InRange ∧
      (compensate promWrap 0 0).2 = -129069 ∧
      off2Low (-129069) = -1966058 ∧
      off2LowSpec (-129069) = 42947706902 ∧
      off2Low (-129069) ≠ off2LowSpec (-129069) := by
  refine ⟨by decide, by decide, by decide, by decide, by decide⟩


/-- Claim C5 (counterexample): `read_prom` reads EIGHT calibration words
(sixteen bus operations at offsets 0..14), not seven, and checks the
eighth word's nibble against a 16-byte checksum: on the accepted image
`wsValid` the load succeeds although the seven-word/14-byte relation of
the claim does not hold (the seventh word's nibble is 8, the claim's
14-byte checksum is different). -/
theorem seven_word_checksum_claim_false :
    (Ms5611.read_prom (ε := Unit) ⟨0x77, none⟩ (devOfWords wsValid)).result = PromResult.ok ∧
      (Ms5611.read_prom (ε := Unit) ⟨0x77, none⟩ (devOfWords wsValid)).log.length = 16 ∧
      promNibble7 wsValid ≠ promCrc7OfWords wsValid := by
  rw [read_prom_devOfWords]
  refine ⟨by decide, by decide, by decide⟩

/-- Claim C5 (amended): `read_prom` reads eight words — the factory word,
the six coefficients and the checksum word — and for every fixed 8-word
image served by an error-free bus, the load succeeds iff the 4 low-order
bits of the EIGHTH word equal the checksum computed over all 16 bytes
(with the checksum word's low byte replaced by zero) by XOR-ing each byte
into the 16-bit register, 8 rounds of shift-left XOR-ing 0x3000 when the
high bit was set, finally shifting right by 12. -/
theorem load_success_iff_checksum {ε : Type} (m : Ms5611) (ws : List (ℕ × ℕ)) :
    (Ms5611.read_prom (ε := ε) m (devOfWords ws)).result = PromResult.ok ↔
      promNibble ws = promCrcOfWords ws := by
  rw [read_prom_devOfWords]
  dsimp only
  split_ifs with h
  · simp [h]
  · simpa using not_not.mp h

/-- Claim C6: the bit-exact command bytes and their order: pressure
conversion first with the OSR base byte (0x40/0x42/0x44/0x46/0x48),
temperature conversion second with base + 0x10, each followed by the
result-read command 0 and a 3-byte read interpreted as a zero-extended
big-endian 24-bit value; reset writes 0b0001_1110; the calibration reads
use base 0b1010_0000 with offsets 0..14 in steps of 2. -/
theorem command_bytes_exact {ε : Type} (a : ℕ) (p : Prom) (osr : OversampleRatio)
    (f : ℕ → List ℕ) :
    ((Ms5611.read (ε := ε) ⟨a, some p⟩ osr (fun k => Except.ok (f k))).log =
      [BusOp.write a [osrCmd osr], BusOp.write a [0], BusOp.read a 3,
       BusOp.write a [osrCmd osr + 0x10], BusOp.write a [0], BusOp.read a 3]) ∧
    ((Ms5611.read (ε := ε) ⟨a, some p⟩ osr (fun k => Except.ok (f k))).result =
      Except.ok (toU32 (compensate p (be24 (f 2)) (be24 (f 5))).1,
        (compensate p (be24 (f 2)) (be24 (f 5))).2)) ∧
    (0 ≤ be24 (f 2) ∧ be24 (f 2) < 16777216 ∧ 0 ≤ be24 (f 5) ∧ be24 (f 5) < 16777216) ∧
    (osrCmd .Osr256 = 0x40 ∧ osrCmd .Osr512 = 0x42 ∧ osrCmd .Osr1024 = 0x44 ∧
      osrCmd .Osr2048 = 0x46 ∧ osrCmd .Osr4096 = 0x48) ∧
    ((Ms5611.reset (ε := ε) ⟨a, some p⟩ (fun k => Except.ok (f k))).1 =
      [BusOp.write a [0b00011110]]) ∧
    ((Ms5611.read_prom (ε := ε) ⟨a, some p⟩ (fun k => Except.ok (f k))).log = promLog a) :=
  ⟨rfl, rfl,
    ⟨(be24_range (f 2)).1, (be24_range (f 2)).2, (be24_range (f 5)).1, (be24_range (f 5)).2⟩,
    ⟨rfl, rfl, rfl, rfl, rfl⟩, rfl, rfl⟩

/-- Claim C7: a transport error at any of the six steps of the conversion
sequence aborts the whole `read` with that error propagated unmodified; no
conversion pair is returned — in particular an error on the second
(temperature) channel never yields the pressure obtained on the first. -/
theorem transport_error_aborts {ε : Type} (a : ℕ) (p : Prom) (osr : OversampleRatio)
    (dev : Dev ε) (f : ℕ → List ℕ) (k : ℕ) (e : ε) (hk : k < 6)
    (hok : ∀ j, j < k → dev j = Except.ok (f j)) (he : dev k = Except.error e) :
    (Ms5611.read (⟨a, some p⟩ : Ms5611) osr dev).result = Except.error e := by
  interval_cases k
  · unfold Ms5611.read; rw [he]
  · unfold Ms5611.read; rw [hok 0 (by omega), he]
  · unfold Ms5611.read; rw [hok 0 (by omega), hok 1 (by omega), he]
  · unfold Ms5611.read; rw [hok 0 (by omega), hok 1 (by omega), hok 2 (by omega), he]
  · unfold Ms5611.read
    rw [hok 0 (by omega), hok 1 (by omega), hok 2 (by omega), hok 3 (by omega), he]
  · unfold Ms5611.read
    rw [hok 0 (by omega), hok 1 (by omega), hok 2 (by omega), hok 3 (by omega),
      hok 4 (by omega), he]

/-- Claim C7 (witness): a transport failure (error 7) at the temperature
conversion-start write (the fourth bus operation) aborts the whole read
with exactly that error. -/
theorem transport_error_aborts_witness :
    (Ms5611.read ⟨0x77, some promDS⟩ OversampleRatio.Osr4096 devErr3).result
      = Except.error 7 :=
  transport_error_aborts 0x77 promDS OversampleRatio.Osr4096 devErr3 (fun _ => []) 3 7
    (by omega) (fun j hj => by interval_cases j <;> rfl) rfl

/-- Claim C8: the five conversion-wait durations, in resolution order, are
1, 2, 3, 5, 10 ms — ranging from 1 through 10 — and are strictly
increasing with resolution (hence also non-decreasing). -/
theorem delays_strictly_increasing :
    delay_ms OversampleRatio.Osr256 = 1 ∧ delay_ms OversampleRatio.Osr512 = 2 ∧
    delay_ms OversampleRatio.Osr1024 = 3 ∧ delay_ms OversampleRatio.Osr2048 = 5 ∧
    delay_ms OversampleRatio.Osr4096 = 10 ∧
    (∀ x y : OversampleRatio, osrIndex x < osrIndex y → delay_ms x < delay_ms y) ∧
    (∀ x y : OversampleRatio, osrIndex x ≤ osrIndex y → delay_ms x ≤ delay_ms y) := by
  refine ⟨rfl, rfl, rfl, rfl, rfl, ?_, ?_⟩ <;>
    (intro x y h; revert h; cases x <;> cases y <;> decide)

/-- Claim C9 (counterexample): with the admissible coefficient set
`promNeg` (C2 = 65535, the rest 0) and raw conversions (0, 0), the
compensation pipeline computes the signed pressure -131070, but `read`
returns 4294836226 = 2^32 - 131070 — the unsigned two's-complement
reinterpretation (`as u32`, src/lib.rs line 198), not the signed value. -/
theorem negative_pressure_reinterpreted :
    (Ms5611.read (ε := Unit) ⟨0x77, some promNeg⟩ OversampleRatio.Osr256
        (fun _ => Except.ok [])).result = Except.ok (4294836226, 2000) ∧
      (compensate promNeg 0 0).1 = -131070 ∧ ((4294836226 : ℤ) ≠ -131070) := by
  refine ⟨by decide, by decide, by decide⟩

/-- Claim C9 (amended): the pressure component of a successful `read` is
the unsigned 32-bit two's-complement reinterpretation (value mod 2^32) of
the signed pressure computed by the compensation pipeline; it equals the
signed value iff that value is nonnegative. -/
theorem pressure_returned_as_u32 {ε : Type} (a : ℕ) (p : Prom) (osr : OversampleRatio)
    (f : ℕ → List ℕ) :
    ((Ms5611.read (ε := ε) ⟨a, some p⟩ osr (fun k => Except.ok (f k))).result =
      Except.ok (toU32 (compensate p (be24 (f 2)) (be24 (f 5))).1,
        (compensate p (be24 (f 2)) (be24 (f 5))).2)) ∧
    (toU32 (compensate p (be24 (f 2)) (be24 (f 5))).1 =
        (compensate p (be24 (f 2)) (be24 (f 5))).1 ↔
      0 ≤ (compensate p (be24 (f 2)) (be24 (f 5))).1) := by
  refine ⟨rfl, ?_⟩
  have h : ∀ z : ℤ, toU32 (toI32 z) = toI32 z ↔ 0 ≤ toI32 z := by
    intro z; unfold toI32 toU32; omega
  exact h _

/-- Claim C10: an uncalibrated `read` returns immediately: it issues no
bus transaction, never invokes the injected delay capability, and leaves
the driver state unchanged (src/lib.rs lines 148-150 return before any
I2C access). -/
theorem uncalibrated_read_frame {ε : Type} (a : ℕ) (osr : OversampleRatio) (dev : Dev ε) :
    (Ms5611.read (⟨a, none⟩ : Ms5611) osr dev).log = [] ∧
    (Ms5611.read (⟨a, none⟩ : Ms5611) osr dev).delays = [] ∧
    (Ms5611.read (⟨a, none⟩ : Ms5611) osr dev).prom = (⟨a, none⟩ : Ms5611).prom :=
  ⟨rfl, rfl, rfl⟩
